import Mathlib

/-!
Verification of the module resolution and secure loading subsystem of the
k6 loader package. The resolver (`Resolve`), directory helper (`Dir`) and
loader (`Load`) are embedded below together with the URL data model they
operate on; the theorems at the end of the file settle the behavioural
claims about them.
-/

namespace Loader

/-- A resolved location: canonical scheme, optional host, path and raw query
string (empty string means no query). Mirrors the `{scheme, host?, path}`
data model of the specification, extended with the query component that a
parsed URL carries along. Equality is structural. -/
structure Location where
  scheme : String
  host : String
  path : String
  query : String
  deriving Repr, DecidableEq

/-- Render a Location back to its canonical URL string form, e.g.
`file:///etc/shadow` or `https://example.com/html`. -/
def Location.render (u : Location) : String :=
  u.scheme ++ "://" ++ u.host ++ u.path ++
    (if u.query = "" then "" else "?" ++ u.query)

/-- Modelled from the spec: characters that may occur in a URL scheme name.
The loader implementation is only exercised by its tests in the analyzed
sources, so scheme detection follows the specification, which treats a
specifier as bearing an explicit scheme when a scheme name is followed by
the `://` separator. -/
def isSchemeChar (c : Char) : Bool :=
  c.isAlpha || c.isDigit || c == '+' || c == '-' || c == '.'

/-- Scan a specifier for an explicit scheme: returns the scheme characters
and the remainder after the `://` separator, or `none` when the specifier
has no explicit scheme. -/
def takeScheme (acc : List Char) : List Char → Option (List Char × List Char)
  | ':' :: '/' :: '/' :: rest =>
      if acc.isEmpty then none else some (acc.reverse, rest)
  | c :: rest => if isSchemeChar c then takeScheme (c :: acc) rest else none
  | [] => none

/-- Hexadecimal digit test for percent-escape validation. -/
def isHexDigit (c : Char) : Bool :=
  c.isDigit || ('a' ≤ c && c ≤ 'f') || ('A' ≤ c && c ≤ 'F')

/-- Numeric value of a hexadecimal digit. -/
def hexVal (c : Char) : Nat :=
  if c.isDigit then c.toNat - 48
  else if 'a' ≤ c && c ≤ 'f' then c.toNat - 87
  else if 'A' ≤ c && c ≤ 'F' then c.toNat - 55
  else 0

/-- Modelled from the spec: percent-escape validation inside a URL host
component. In the host of a URL, a percent escape must be two hexadecimal
digits and may only encode a non-ASCII byte (or the literal percent sign
`%25`); any other escape is malformed URL syntax. Returns the offending
escape text, or `none` when the host is well formed. -/
def findBadHostEscape : List Char → Option String
  | '%' :: a :: b :: rest =>
      if isHexDigit a && isHexDigit b &&
          (decide (128 ≤ hexVal a * 16 + hexVal b) || (a == '2' && b == '5')) then
        findBadHostEscape rest
      else
        some (String.mk ['%', a, b])
  | ['%', a] => some (String.mk ['%', a])
  | ['%'] => some "%"
  | _ :: rest => findBadHostEscape rest
  | [] => none

/-- Modelled from the spec: parse the remainder of a specifier after an
explicit scheme into a Location. The host extends to the first `/`, the
path to the first `?`, and the rest is the raw query. A malformed
percent escape in the host yields the underlying parse diagnostic. -/
def parseAfterScheme (original : String) (scheme rest : List Char) :
    Except String Location :=
  match findBadHostEscape (rest.takeWhile (fun c => c != '/')) with
  | some esc =>
      .error ("parse " ++ original ++ ": invalid URL escape " ++ "\"" ++ esc ++ "\"")
  | none =>
      .ok ⟨String.mk scheme,
           String.mk (rest.takeWhile (fun c => c != '/')),
           String.mk ((rest.dropWhile (fun c => c != '/')).takeWhile (fun c => c != '?')),
           String.mk (((rest.dropWhile (fun c => c != '/')).dropWhile (fun c => c != '?')).drop 1)⟩

/-- Parse a specifier that bears an explicit scheme; `none` when the
specifier has no explicit scheme. -/
def parseExplicit (s : String) : Option (Except String Location) :=
  match takeScheme [] s.data with
  | none => none
  | some (scheme, rest) => some (parseAfterScheme s scheme rest)

/-- The error taxonomy of the resolver, as laid out in the specification.
`internal` models a defect that the original program would surface as a
crash (dereferencing an absent base location). -/
inductive ResolveError where
  | emptySpecifier
  | malformedSpecifier (detail : String)
  | unsupportedScheme (specifier scheme : String)
  | originNotAllowed (origin fileLocation : String)
  | internal (detail : String)
  deriving Repr, DecidableEq

/-- Modelled from the spec: the exact user-facing message of each resolver
error. -/
def ResolveError.message : ResolveError → String
  | .emptySpecifier => "local or remote path required"
  | .malformedSpecifier d => d
  | .unsupportedScheme s sch =>
      "only supported schemes for imports are file and https, " ++ s ++ " has `" ++ sch ++ "`"
  | .originNotAllowed o f =>
      "origin (" ++ o ++ ") not allowed to load local file: " ++ f
  | .internal d => d

/-- Does the specifier start with `.` or `/` (path-like specifier)? -/
def startsWithDotOrSlash (s : String) : Bool :=
  match s.data with
  | [] => false
  | c :: _ => c == '.' || c == '/'

/-- Does the specifier start with `/` (absolute path)? -/
def startsWithSlash (s : String) : Bool :=
  match s.data with
  | [] => false
  | c :: _ => c == '/'

/-- The first path segment of a specifier (up to the first `/`). -/
def firstSegment (s : String) : List Char :=
  s.data.takeWhile (fun c => c != '/')

/-- Modelled from the spec: a scheme-less specifier is host-shaped when its
first path segment is dot-separated (contains a `.`); together with the
leading-character check in `Resolve` this is the implicit-https
classification. -/
def hostShaped (s : String) : Bool :=
  (firstSegment s).contains '.'

/-- Split a path into its non-empty `/`-separated segments. -/
def segAux (cur : List Char) : List Char → List String
  | [] => if cur.isEmpty then [] else [String.mk cur.reverse]
  | '/' :: rest =>
      if cur.isEmpty then segAux [] rest
      else String.mk cur.reverse :: segAux [] rest
  | c :: rest => segAux (c :: cur) rest

/-- Lexically collapse `.` and `..` segments (no filesystem access). -/
def cleanSegments (stack : List String) : List String → List String
  | [] => stack.reverse
  | "." :: rest => cleanSegments stack rest
  | ".." :: rest => cleanSegments stack.tail rest
  | seg :: rest => cleanSegments (seg :: stack) rest

/-- Rebuild an absolute path from segments. -/
def joinSegs : List String → String
  | [] => ""
  | s :: rest => "/" ++ s ++ joinSegs rest

/-- Canonical absolute path from a segment list. -/
def cleanPathOf (segs : List String) : String :=
  match cleanSegments [] segs with
  | [] => "/"
  | l => joinSegs l

/-- Lexically join a specifier onto a directory path. -/
def joinPaths (dir spec : String) : String :=
  cleanPathOf (segAux [] (dir.data ++ ('/' :: spec.data)))

/-- Lexically clean an absolute path. -/
def cleanAbsolute (p : String) : String :=
  cleanPathOf (segAux [] p.data)

/-- Strip the final path segment, keeping the trailing slash; the sentinel
standard-input path `-` maps to the root. -/
def dirPath (p : String) : String :=
  if p = "-" then "/"
  else String.mk ((p.data.reverse.dropWhile (fun c => c != '/')).reverse)

/-- Modelled from the spec: the directory helper. Returns a Location
identical in scheme and host whose path is the parent directory of the
input path; total, no error case. -/
def Dir (u : Location) : Location :=
  { u with path := dirPath u.path, query := "" }

/-- Modelled from the spec: resolve a path-like specifier against the
directory of the base location, keeping the base scheme and host. A
leading `/` replaces the entire path; otherwise the specifier is joined
lexically onto the base directory. -/
def relativeResolve (b : Location) (spec : String) : Location :=
  if startsWithSlash spec then
    { b with path := cleanAbsolute spec, query := "" }
  else
    { b with path := joinPaths ((Dir b).path) spec, query := "" }

/-- Modelled from the spec: the advisory surfaced when an https scheme is
inferred for a bare host-shaped specifier. -/
def inferredSchemeWarning : String :=
  "moduleSpecifier did not have a scheme, https was assumed"

/-- Placeholder message for the defect of resolving a relative specifier
against an absent base location (a crash in the original program). -/
def nilBaseMsg : String :=
  "nil base location dereferenced"

/-- Modelled from the spec: the resolver. Turns a base location and a
specifier into a canonical location plus a list of advisory warnings,
enforcing the scheme allow-list and the local-file origin policy. The
loader implementation is only exercised by its tests in the analyzed
sources; this definition follows spec section 4.1. -/
def Resolve (base : Option Location) (specifier : String) :
    Except ResolveError (Location × List String) :=
  if specifier = "" then
    .error .emptySpecifier
  else
    match parseExplicit specifier with
    | some (.error d) => .error (.malformedSpecifier d)
    | some (.ok u) =>
        if u.scheme ≠ "file" ∧ u.scheme ≠ "https" then
          .error (.unsupportedScheme specifier u.scheme)
        else
          match base with
          | some b =>
              if u.scheme = "file" ∧ b.scheme = "https" then
                .error (.originNotAllowed (b.render) (u.render))
              else
                .ok (u, [])
          | none => .ok (u, [])
    | none =>
        if startsWithDotOrSlash specifier then
          match base with
          | some b => .ok (relativeResolve b specifier, [])
          | none => .error (.internal nilBaseMsg)
        else if hostShaped specifier then
          match parseExplicit ("https://" ++ specifier) with
          | some (.ok u) => .ok (u, [inferredSchemeWarning])
          | some (.error d) => .error (.malformedSpecifier d)
          | none => .error (.internal nilBaseMsg)
        else
          match base with
          | some b => .ok (relativeResolve b specifier, [])
          | none => .error (.internal nilBaseMsg)

/-- A local filesystem backend: a finite map from path to file contents. -/
structure FileBackend where
  files : List (String × String)
  deriving Repr, DecidableEq

/-- Read the bytes at a path, if present. -/
def FileBackend.read (fs : FileBackend) (p : String) : Option String :=
  fs.files.lookup p

/-- A remote backend: an injected fetch capability returning either the
response body or an upstream error detail. -/
structure RemoteBackend where
  fetch : Location → Except String String

/-- The per-scheme storage backend registry. -/
structure Backends where
  file : Option FileBackend
  https : Option RemoteBackend

/-- A successfully loaded source: the canonical location plus the raw
bytes. -/
structure Source where
  url : Location
  data : String
  deriving Repr, DecidableEq

/-- Modelled from the spec: the fixed template of the file-scheme load
failure message, embedding the fully-qualified `file://` form of the
canonical path. -/
def fileSchemeCouldntBeLoadedMsg (moduleSpecifier : String) : String :=
  "The moduleSpecifier " ++ moduleSpecifier ++
    " could not be found on local disk. " ++
    "Make sure that you have specified the right path to the file."

/-- The error taxonomy of the loader. -/
inductive LoadError where
  | noBackend (scheme : String)
  | fileNotLoadable (fileURL : String)
  | remoteNotLoadable (url : String) (detail : String)
  deriving Repr, DecidableEq

/-- Modelled from the spec: the user-facing message of each loader
error. -/
def LoadError.message : LoadError → String
  | .noBackend sch => "no loader found for scheme " ++ sch
  | .fileNotLoadable u => fileSchemeCouldntBeLoadedMsg u
  | .remoteNotLoadable u d =>
      "The moduleSpecifier at " ++ u ++ " could not be retrieved. Error: " ++ d

/-- Modelled from the spec: the loader. Looks up the backend for the
location scheme and retrieves the raw bytes: one backend read for the
file scheme, one plain fetch of the resolved URL exactly as given for the
https scheme. -/
def Load (bs : Backends) (u : Location) (originalSpecifier : String) :
    Except LoadError Source :=
  if u.scheme = "file" then
    match bs.file with
    | none => .error (.noBackend "file")
    | some fs =>
        match fs.read u.path with
        | some contents => .ok ⟨u, contents⟩
        | none => .error (.fileNotLoadable (u.render))
  else if u.scheme = "https" then
    match bs.https with
    | none => .error (.noBackend "https")
    | some rb =>
        match rb.fetch u with
        | .ok body => .ok ⟨u, body⟩
        | .error d => .error (.remoteNotLoadable (u.render) d)
  else
    .error (.noBackend u.scheme)

/-- Keys of a raw query string: `&`-separated items, each truncated at the
first `=`. -/
def queryKeyList (cur : List Char) : List Char → List String
  | [] => [String.mk ((cur.reverse).takeWhile (fun c => c != '='))]
  | '&' :: rest =>
      String.mk ((cur.reverse).takeWhile (fun c => c != '=')) :: queryKeyList [] rest
  | c :: rest => queryKeyList (c :: cur) rest

/-- Does the raw query string carry the given key? -/
def queryHasKey (q k : String) : Bool :=
  (queryKeyList [] q.data).contains k

/-- The base location for `file:///`. -/
def fileRoot : Location := ⟨"file", "", "/", ""⟩

/-- A concrete response body for the compatibility-marker scenario. -/
def c3Body : String := "export function fn 1234"

/-- A remote endpoint that fails exactly when the `_k6` compatibility
marker is present in the query string of the fetched URL, and otherwise
serves `c3Body` verbatim. -/
def c3Fetch : Location → Except String String := fun v =>
  if queryHasKey v.query "_k6" = true then .error "Internal server error"
  else .ok c3Body

theorem takeScheme_https (s : String) :
    takeScheme [] ("https://" ++ s).data = some ("https".data, s.data) := rfl

theorem parseExplicit_httpsScheme (s : String) (u : Location)
    (h : parseExplicit ("https://" ++ s) = some (.ok u)) : u.scheme = "https" := by
  have h2 : parseAfterScheme ("https://" ++ s) "https".data s.data = .ok u := by
    unfold parseExplicit at h
    rw [takeScheme_https] at h
    exact Option.some.inj h
  unfold parseAfterScheme at h2
  split at h2
  · exact absurd h2 (by simp)
  · exact (congrArg Location.scheme (Except.ok.inj h2)).symm

theorem relativeResolve_scheme (b : Location) (s : String) :
    (relativeResolve b s).scheme = b.scheme := by
  unfold relativeResolve
  split <;> rfl

theorem parseExplicit_ne_empty (s : String) (r : Except String Location)
    (h : parseExplicit s = some r) : s ≠ "" := by
  intro he
  rw [he] at h
  exact Option.noConfusion h

theorem Resolve_malformed (base : Option Location) (s d : String)
    (hp : parseExplicit s = some (.error d)) :
    Resolve base s = .error (.malformedSpecifier d) := by
  unfold Resolve
  rw [if_neg (parseExplicit_ne_empty s _ hp), hp]

theorem Resolve_explicit (base : Option Location) (s : String) (u : Location)
    (hp : parseExplicit s = some (.ok u)) :
    Resolve base s =
      (if u.scheme ≠ "file" ∧ u.scheme ≠ "https" then
        .error (.unsupportedScheme s u.scheme)
      else
        match base with
        | some b =>
            if u.scheme = "file" ∧ b.scheme = "https" then
              .error (.originNotAllowed (b.render) (u.render))
            else .ok (u, [])
        | none => .ok (u, [])) := by
  unfold Resolve
  rw [if_neg (parseExplicit_ne_empty s _ hp), hp]

theorem Resolve_explicit_some (b : Location) (s : String) (u : Location)
    (hp : parseExplicit s = some (.ok u)) :
    Resolve (some b) s =
      (if u.scheme ≠ "file" ∧ u.scheme ≠ "https" then
        .error (.unsupportedScheme s u.scheme)
      else if u.scheme = "file" ∧ b.scheme = "https" then
        .error (.originNotAllowed (b.render) (u.render))
      else .ok (u, [])) := by
  rw [Resolve_explicit (some b) s u hp]

theorem Resolve_schemeless (b : Location) (s : String)
    (hs : s ≠ "") (hp : parseExplicit s = none) :
    Resolve (some b) s =
      (if startsWithDotOrSlash s then .ok (relativeResolve b s, [])
       else if hostShaped s then
         (match parseExplicit ("https://" ++ s) with
          | some (.ok u) => .ok (u, [inferredSchemeWarning])
          | some (.error d) => .error (.malformedSpecifier d)
          | none => .error (.internal nilBaseMsg))
       else .ok (relativeResolve b s, [])) := by
  unfold Resolve
  rw [if_neg hs, hp]

theorem Load_https (bs : Backends) (u : Location) (spec : String)
    (hu : u.scheme = "https") (rb : RemoteBackend) (hb : bs.https = some rb) :
    Load bs u spec =
      (match rb.fetch u with
       | .ok body => .ok ⟨u, body⟩
       | .error d => .error (.remoteNotLoadable (u.render) d)) := by
  unfold Load
  rw [if_neg (by rw [hu]; decide), if_pos hu, hb]

/-- C1: for every base whose scheme is https and every specifier bearing an
explicit file scheme, Resolve fails with OriginNotAllowed whose message is
exactly `origin (<base>) not allowed to load local file: <resolved>`, and
Resolve never returns a file-scheme Location when the base scheme is
https. -/
theorem c1_remote_lifting_denied (b : Location) (hb : b.scheme = "https") :
    (∀ s u, parseExplicit s = some (.ok u) → u.scheme = "file" →
      Resolve (some b) s = .error (.originNotAllowed (b.render) (u.render)) ∧
      (ResolveError.originNotAllowed (b.render) (u.render)).message =
        "origin (" ++ b.render ++ ") not allowed to load local file: " ++ u.render) ∧
    (∀ s u w, Resolve (some b) s = .ok (u, w) → u.scheme ≠ "file") := by
  constructor
  · intro s u hp hu
    refine ⟨?_, rfl⟩
    rw [Resolve_explicit_some b s u hp, if_neg (by rw [hu]; simp), if_pos ⟨hu, hb⟩]
  · intro s u w hok
    by_cases hs : s = ""
    · rw [hs] at hok
      exact absurd hok (by simp [Resolve])
    rcases hp : parseExplicit s with _ | r
    · rw [Resolve_schemeless b s hs hp] at hok
      by_cases hd : startsWithDotOrSlash s = true
      · rw [if_pos hd] at hok
        have h3 : relativeResolve b s = u := congrArg Prod.fst (Except.ok.inj hok)
        rw [← h3, relativeResolve_scheme, hb]
        decide
      · rw [if_neg hd] at hok
        by_cases hh : hostShaped s = true
        · rw [if_pos hh] at hok
          rcases hq : parseExplicit ("https://" ++ s) with _ | r2
          · rw [hq] at hok
            exact absurd hok (by simp)
          · rw [hq] at hok
            cases r2 with
            | error d => exact absurd hok (by simp)
            | ok v =>
              have h3 : v = u := congrArg Prod.fst (Except.ok.inj hok)
              rw [← h3, parseExplicit_httpsScheme s v hq]
              decide
        · rw [if_neg hh] at hok
          have h3 : relativeResolve b s = u := congrArg Prod.fst (Except.ok.inj hok)
          rw [← h3, relativeResolve_scheme, hb]
          decide
    · cases r with
      | error d =>
        rw [Resolve_malformed (some b) s d hp] at hok
        exact absurd hok (by simp)
      | ok v =>
        rw [Resolve_explicit_some b s v hp] at hok
        by_cases h1 : v.scheme ≠ "file" ∧ v.scheme ≠ "https"
        · rw [if_pos h1] at hok
          exact absurd hok (by simp)
        · rw [if_neg h1] at hok
          by_cases h2 : v.scheme = "file" ∧ b.scheme = "https"
          · rw [if_pos h2] at hok
            exact absurd hok (by simp)
          · rw [if_neg h2] at hok
            have h3 : v = u := congrArg Prod.fst (Except.ok.inj hok)
            rw [← h3]
            intro hc
            exact h2 ⟨hc, hb⟩

theorem c1_remote_lifting_denied_witness :
    Resolve (some ⟨"https", "example.com", "", ""⟩) "file:///etc/shadow" =
      .error (.originNotAllowed "https://example.com" "file:///etc/shadow") ∧
    (ResolveError.originNotAllowed "https://example.com" "file:///etc/shadow").message =
      "origin (https://example.com) not allowed to load local file: file:///etc/shadow" := by
  have h := (c1_remote_lifting_denied ⟨"https", "example.com", "", ""⟩ rfl).1
    "file:///etc/shadow" ⟨"file", "", "/etc/shadow", ""⟩ rfl rfl
  exact ⟨h.1, rfl⟩

/-- C2: for every base and every specifier parsing as a URL with an
explicit scheme outside file and https, Resolve fails with
UnsupportedScheme whose message names the specifier verbatim first and
then the scheme. -/
theorem c2_unsupported_scheme (base : Option Location) (s : String) (u : Location)
    (hp : parseExplicit s = some (.ok u))
    (h1 : u.scheme ≠ "file") (h2 : u.scheme ≠ "https") :
    Resolve base s = .error (.unsupportedScheme s u.scheme) ∧
    (ResolveError.unsupportedScheme s u.scheme).message =
      "only supported schemes for imports are file and https, " ++ s ++
        " has `" ++ u.scheme ++ "`" := by
  refine ⟨?_, rfl⟩
  rw [Resolve_explicit base s u hp]
  exact if_pos ⟨h1, h2⟩

theorem c2_unsupported_scheme_witness :
    Resolve (some fileRoot) "ws://example.com/html" =
      .error (.unsupportedScheme "ws://example.com/html" "ws") ∧
    (ResolveError.unsupportedScheme "ws://example.com/html" "ws").message =
      "only supported schemes for imports are file and https, ws://example.com/html has `ws`" := by
  have h := c2_unsupported_scheme (some fileRoot) "ws://example.com/html"
    ⟨"ws", "example.com", "/html", ""⟩ rfl (by decide) (by decide)
  exact ⟨h.1, rfl⟩

/-- C3: against a remote endpoint that fails exactly when the `_k6`
compatibility marker is present in the query string, the default load of
the plainly resolved URL succeeds and returns the body verbatim: the
resolved URL carries no marker and Load fetches it exactly as given. -/
theorem c3_no_marker_fetch (body : String) (fetch : Location → Except String String)
    (hfail : ∀ v, queryHasKey v.query "_k6" = true → ∃ d, fetch v = .error d)
    (hok : ∀ v, queryHasKey v.query "_k6" = false → fetch v = .ok body) :
    Resolve (some fileRoot) "https://example.com/raw/something" =
      .ok (⟨"https", "example.com", "/raw/something", ""⟩, []) ∧
    (⟨"https", "example.com", "/raw/something", ""⟩ : Location).query = "" ∧
    queryHasKey "" "_k6" = false ∧
    Load ⟨none, some ⟨fetch⟩⟩ ⟨"https", "example.com", "/raw/something", ""⟩
        "https://example.com/raw/something" =
      .ok ⟨⟨"https", "example.com", "/raw/something", ""⟩, body⟩ := by
  refine ⟨rfl, rfl, rfl, ?_⟩
  have h := hok ⟨"https", "example.com", "/raw/something", ""⟩ rfl
  have h2 : RemoteBackend.fetch ⟨fetch⟩ = fetch := rfl
  rw [Load_https _ _ _ rfl ⟨fetch⟩ rfl, h2, h]

theorem c3_no_marker_fetch_witness :
    Resolve (some fileRoot) "https://example.com/raw/something" =
      .ok (⟨"https", "example.com", "/raw/something", ""⟩, []) ∧
    Load ⟨none, some ⟨c3Fetch⟩⟩ ⟨"https", "example.com", "/raw/something", ""⟩
        "https://example.com/raw/something" =
      .ok ⟨⟨"https", "example.com", "/raw/something", ""⟩, c3Body⟩ := by
  have hfail : ∀ v, queryHasKey v.query "_k6" = true → ∃ d, c3Fetch v = .error d := by
    intro v hv
    exact ⟨"Internal server error", by simp [c3Fetch, hv]⟩
  have hok2 : ∀ v, queryHasKey v.query "_k6" = false → c3Fetch v = .ok c3Body := by
    intro v hv
    simp [c3Fetch, hv]
  have h := c3_no_marker_fetch c3Body c3Fetch hfail hok2
  exact ⟨h.1, h.2.2.2⟩

/-- C4: relative resolution is lexical and confluent, preserving the base
scheme and host: the three specifiers all resolve to the structurally
identical `file:///path/to/file.txt`, and loading that location from a
backend pre-seeded with `hi` returns that source. -/
theorem c4_lexical_confluence :
    Resolve (some ⟨"file", "", "/path/", ""⟩) "/path/to/file.txt" =
      .ok (⟨"file", "", "/path/to/file.txt", ""⟩, []) ∧
    Resolve (some ⟨"file", "", "/path/", ""⟩) "./to/file.txt" =
      .ok (⟨"file", "", "/path/to/file.txt", ""⟩, []) ∧
    Resolve (some ⟨"file", "", "/path/to/", ""⟩) "./file.txt" =
      .ok (⟨"file", "", "/path/to/file.txt", ""⟩, []) ∧
    Load ⟨some ⟨[("/path/to/file.txt", "hi")]⟩, none⟩
        ⟨"file", "", "/path/to/file.txt", ""⟩ "./to/file.txt" =
      .ok ⟨⟨"file", "", "/path/to/file.txt", ""⟩, "hi"⟩ ∧
    Location.render ⟨"file", "", "/path/to/file.txt", ""⟩ = "file:///path/to/file.txt" :=
  ⟨rfl, rfl, rfl, rfl, rfl⟩

/-- C5: a scheme-less specifier with a host-shaped first segment resolves
to the https-prefixed Location with a non-fatal advisory warning. -/
theorem c5_implicit_https_inference :
    Resolve (some fileRoot) "example.com/html" =
      .ok (⟨"https", "example.com", "/html", ""⟩, [inferredSchemeWarning]) ∧
    Location.render ⟨"https", "example.com", "/html", ""⟩ = "https://example.com/html" ∧
    inferredSchemeWarning ≠ "" :=
  ⟨rfl, rfl, by decide⟩

/-- C6: for every base, including an absent one, resolving the empty
specifier fails with EmptySpecifier and the message
`local or remote path required`; the base is never inspected. -/
theorem c6_empty_specifier (base : Option Location) :
    Resolve base "" = .error .emptySpecifier ∧
    ResolveError.emptySpecifier.message = "local or remote path required" :=
  ⟨rfl, rfl⟩

/-- C7: loading a file-scheme Location whose path has no bytes in the file
backend fails with FileNotLoadable whose message follows the fixed
template and embeds the fully-qualified `file://` form of the path. -/
theorem c7_file_not_loadable :
    Resolve (some fileRoot) "/nonexistent" = .ok (⟨"file", "", "/nonexistent", ""⟩, []) ∧
    Load ⟨some ⟨[]⟩, none⟩ ⟨"file", "", "/nonexistent", ""⟩ "/nonexistent" =
      .error (.fileNotLoadable "file:///nonexistent") ∧
    (LoadError.fileNotLoadable "file:///nonexistent").message =
      fileSchemeCouldntBeLoadedMsg "file:///nonexistent" ∧
    (∃ p q, (LoadError.fileNotLoadable "file:///nonexistent").message =
      p ++ "file:///nonexistent" ++ q) :=
  ⟨rfl, rfl, rfl,
    ⟨"The moduleSpecifier ",
     " could not be found on local disk. Make sure that you have specified the right path to the file.",
     rfl⟩⟩

/-- C8: Dir is total, preserves scheme and host, strips the final path
segment, and maps the standard-input sentinel path `-` to the root. -/
theorem c8_dir_total (u : Location) :
    ((Dir u).scheme = u.scheme ∧ (Dir u).host = u.host) ∧
    Dir ⟨"file", "", "/path/to/file.txt", ""⟩ = ⟨"file", "", "/path/to/", ""⟩ ∧
    Dir ⟨"file", "", "-", ""⟩ = ⟨"file", "", "/", ""⟩ :=
  ⟨⟨rfl, rfl⟩, rfl, rfl⟩

/-- C9: a specifier with an invalid percent escape fails with
MalformedSpecifier, and the propagated parse diagnostic contains
`invalid URL escape "%31"`. -/
theorem c9_malformed_specifier :
    ∃ d, Resolve (some fileRoot) "192.168.0.%31" = .error (.malformedSpecifier d) ∧
      (ResolveError.malformedSpecifier d).message = d ∧
      ∃ p q, d = p ++ "invalid URL escape \"%31\"" ++ q :=
  ⟨"parse https://192.168.0.%31: invalid URL escape \"%31\"", rfl, rfl,
    "parse https://192.168.0.%31: ", "", rfl⟩

/-- C10: a scheme-less specifier containing a dot and no leading dot or
slash is classified as an implicit-https remote reference even when shaped
like a plain local filename, and the subsequent load fails as a remote
load failure. -/
theorem c10_bare_host_remote :
    Resolve (some fileRoot) "some-path-that-doesnt-exist.js" =
      .ok (⟨"https", "some-path-that-doesnt-exist.js", "", ""⟩, [inferredSchemeWarning]) ∧
    ∀ (fetch : Location → Except String String) (d : String),
      fetch ⟨"https", "some-path-that-doesnt-exist.js", "", ""⟩ = .error d →
      Load ⟨none, some ⟨fetch⟩⟩ ⟨"https", "some-path-that-doesnt-exist.js", "", ""⟩
          "some-path-that-doesnt-exist.js" =
        .error (.remoteNotLoadable "https://some-path-that-doesnt-exist.js" d) := by
  refine ⟨rfl, ?_⟩
  intro fetch d hf
  have h2 : RemoteBackend.fetch ⟨fetch⟩ = fetch := rfl
  rw [Load_https _ _ _ rfl ⟨fetch⟩ rfl, h2, hf]
  rfl

theorem c10_bare_host_remote_witness :
    Resolve (some fileRoot) "some-path-that-doesnt-exist.js" =
      .ok (⟨"https", "some-path-that-doesnt-exist.js", "", ""⟩, [inferredSchemeWarning]) ∧
    Load ⟨none, some ⟨fun _ => .error "dial tcp: no such host"⟩⟩
        ⟨"https", "some-path-that-doesnt-exist.js", "", ""⟩
        "some-path-that-doesnt-exist.js" =
      .error (.remoteNotLoadable "https://some-path-that-doesnt-exist.js"
        "dial tcp: no such host") := by
  refine ⟨c10_bare_host_remote.1, ?_⟩
  exact c10_bare_host_remote.2 (fun _ => .error "dial tcp: no such host")
    "dial tcp: no such host" rfl

end Loader
